import Mathlib

/-!
Shallow embedding of `src/app.py` from the repository
`Manas4905/AI-Powered-Air-Purifier-Recommendation`, together with theorems
settling the frozen claims about its specification.

The file has two parts:
* the recommendation client `get_ai_recommendation` (app.py lines 13-39),
  modelled with an explicit transport oracle and an explicit trace of
  outbound HTTP POST calls and sleeps;
* the dataset loader `load_data` (app.py lines 48-78) and the aggregation
  pipeline (pollutant frequency, mean AQI) used by the three views.
-/

set_option autoImplicit false

namespace AirPurifier

/-! ## Recommendation client (app.py lines 13-39)

The Gemini JSON response body is modelled structurally.  In the Python code
the shape checks are truthiness checks on `dict.get` results:
`result.get("candidates")`, `...get("content")`, `...get("parts")`.
An absent key, a `null` value, an empty list and an empty dict are all
falsy, so they are collapsed into `none` / `some []` below; the final
access `["parts"][0]["text"]` is a direct subscript, so a first part
without a `"text"` key raises `KeyError` — modelled as `text = none`.
-/

structure GeminiPart where
  text : Option String
  deriving DecidableEq, Repr

structure GeminiContent where
  parts : Option (List GeminiPart)
  deriving DecidableEq, Repr

structure GeminiCandidate where
  content : Option GeminiContent
  deriving DecidableEq, Repr

structure GeminiJson where
  candidates : Option (List GeminiCandidate)
  deriving DecidableEq, Repr

/-- Outcome of one `requests.post` call: either the call raised a transport
exception (caught by the surrounding `except Exception`), or it returned a
response with a status code and a (already JSON-decoded) body. -/
inductive PostOutcome where
  | exn (msg : String)
  | resp (status : Nat) (body : GeminiJson)
  deriving DecidableEq, Repr

/-- Observable result of one invocation of `get_ai_recommendation`:
the returned string, the number of outbound HTTP POST calls performed,
and the list of `time.sleep` durations (in seconds, in order).
The Python function always returns a string — every exception inside the
`try` block is caught — so the model is a total function into this type. -/
structure RunResult where
  reply : String
  posts : Nat
  sleeps : List Nat
  deriving DecidableEq, Repr

/-- app.py line 18: fixed configuration-error string. -/
def configReply : String := "API key not set. Please configure your Gemini API key."

/-- app.py line 34: fixed string for a 200 response of unexpected shape. -/
def couldNotReply : String :=
  "Sorry, the recommendation could not be generated. Please try again."

/-- app.py line 37: fixed terminal soft-failure string after the retry
budget is exhausted. -/
def exhaustedReply : String :=
  "Sorry, I couldn\x27t generate a recommendation at this time. Please try again later."

/-- app.py line 39: the `except Exception as e` branch formats the caught
exception into the returned string. -/
def errorReply (e : String) : String :=
  "Sorry, an error occurred while generating the recommendation: " ++ e

/-- Python string representation of `KeyError("text")`, the exception raised
by `result["candidates"][0]["content"]["parts"][0]["text"]` when the first
part has no `"text"` key. -/
def keyErrorText : String := "\x27text\x27"

/-- app.py lines 29-34: the handling of an HTTP 200 response body.
`none` means one of the truthiness checks on line 31 failed
(missing/empty `candidates`, missing `content`, missing/empty `parts`);
`some t` means the chain reached `["parts"][0]`, whose `"text"` entry is `t`
(`t = none` models the `KeyError` of a part without a `"text"` key). -/
def firstPartText (b : GeminiJson) : Option (Option String) :=
  match b.candidates with
  | none => none
  | some [] => none
  | some (c :: _) =>
    match c.content with
    | none => none
    | some ct =>
      match ct.parts with
      | none => none
      | some [] => none
      | some (p :: _) => some p.text

/-- app.py lines 26-37: the `while retries < 3` loop.  `transport n` is the
outcome of the `n`-th `requests.post` call (0-based).  The loop condition
`retries < 3` with `retries += 1` on each non-200 response is expressed
with the remaining budget `fuel = 3 - retries`; `retries` is kept as an
argument because the sleep duration on line 36 is `2 ** retries` after the
increment.  A transport exception leaves the loop at once: the `try` block
wraps the whole loop, so the exception is caught by line 38 without retry. -/
def geminiLoop (transport : Nat → PostOutcome) :
    Nat → Nat → Nat → List Nat → RunResult
  | 0, calls, _, sleeps => ⟨exhaustedReply, calls, sleeps⟩
  | fuel + 1, calls, retries, sleeps =>
    match transport calls with
    | .exn m => ⟨errorReply m, calls + 1, sleeps⟩
    | .resp status body =>
      if status = 200 then
        match firstPartText body with
        | none => ⟨couldNotReply, calls + 1, sleeps⟩
        | some none => ⟨errorReply keyErrorText, calls + 1, sleeps⟩
        | some (some t) => ⟨t, calls + 1, sleeps⟩
      else
        geminiLoop transport fuel (calls + 1) (retries + 1)
          (sleeps ++ [2 ^ (retries + 1)])

/-- app.py line 17: `if not GEMINI_API_KEY`.  `st.secrets.get` yields `None`
when the key is absent; Python treats both `None` and the empty string as
falsy. -/
def keyFalsy : Option String → Bool
  | none => true
  | some s => s.isEmpty

/-- app.py lines 13-39: `get_ai_recommendation`, parametrised by the
configured credential and the transport oracle.  The prompt string does not
influence control flow, so it is not a parameter of the model. -/
def get_ai_recommendation (key : Option String) (transport : Nat → PostOutcome) :
    RunResult :=
  if keyFalsy key then ⟨configReply, 0, []⟩
  else geminiLoop transport 3 0 0 []

/-! ## Claims about the recommendation client -/

/-- C5: when the API credential is absent, every invocation of the
recommendation client returns the fixed configuration-error string
immediately and performs zero outbound HTTP calls and zero sleeps. -/
theorem C5_missing_key_short_circuit (transport : Nat → PostOutcome) :
    get_ai_recommendation none transport = ⟨configReply, 0, []⟩ := rfl

/-- C10: a credential that is present but empty (falsy in Python) is treated
exactly like an absent credential: the client short-circuits with the fixed
configuration-error string and performs zero outbound HTTP calls. -/
theorem C10_empty_key_like_absent (transport : Nat → PostOutcome) :
    get_ai_recommendation (some "") transport = get_ai_recommendation none transport ∧
    get_ai_recommendation (some "") transport = ⟨configReply, 0, []⟩ :=
  ⟨rfl, rfl⟩

/-- C3: if the credential is set and every HTTP POST returns a non-200
status, the client performs exactly 3 attempts and returns the fixed
terminal failure string; the recorded sleeps are `[2, 4, 8]`, so it sleeps
`2 ≥ 2` seconds before attempt 2 and `4 ≥ 4` seconds before attempt 3
(the final 8-second sleep precedes the return), it never makes a 4th
attempt, and it returns a value rather than raising. -/
theorem C3_all_non200_three_attempts (key : Option String)
    (transport : Nat → PostOutcome)
    (hkey : keyFalsy key = false)
    (h : ∀ n, ∃ s b, transport n = .resp s b ∧ s ≠ 200) :
    get_ai_recommendation key transport = ⟨exhaustedReply, 3, [2, 4, 8]⟩ := by
  obtain ⟨s0, b0, h0, hs0⟩ := h 0
  obtain ⟨s1, b1, h1, hs1⟩ := h 1
  obtain ⟨s2, b2, h2, hs2⟩ := h 2
  simp [get_ai_recommendation, hkey, geminiLoop, h0, h1, h2, hs0, hs1, hs2]

/-- Witness for C3 at a concrete credential and an all-500 transport. -/
theorem C3_witness :
    keyFalsy (some "k") = false ∧
    get_ai_recommendation (some "k") (fun _ => .resp 500 ⟨none⟩)
      = ⟨exhaustedReply, 3, [2, 4, 8]⟩ :=
  ⟨rfl, C3_all_non200_three_attempts (some "k") (fun _ => .resp 500 ⟨none⟩) rfl
    (fun _ => ⟨500, ⟨none⟩, rfl, by decide⟩)⟩

/-- C1 counterexample: with a credential configured, a transport exception
on the very first HTTP attempt is NOT retried — the client makes exactly
one POST, sleeps zero times, and returns the error-describing string of the
`except` branch, not the terminal soft-failure string the claim names. -/
theorem C1_counterexample :
    (get_ai_recommendation (some "k") (fun _ => .exn "connection reset")).posts = 1 ∧
    (get_ai_recommendation (some "k") (fun _ => .exn "connection reset")).sleeps = [] ∧
    (get_ai_recommendation (some "k") (fun _ => .exn "connection reset")).reply
      = errorReply "connection reset" ∧
    (get_ai_recommendation (some "k") (fun _ => .exn "connection reset")).reply
      ≠ exhaustedReply := by
  refine ⟨rfl, rfl, rfl, ?_⟩
  decide

/-- C1 (amended): a transport exception during any HTTP attempt is caught
immediately by the `except` block and the client returns the
error-describing string without any further attempt; only non-200 responses
are retried.  If the first `j` attempts (`j < 3`) return non-200 and attempt
`j + 1` raises, the client has made exactly `j + 1` POST calls and slept the
backoff sequence `2^1, ..., 2^j`; it never crashes (the model is total). -/
theorem C1_transport_exn_not_retried (key : Option String)
    (transport : Nat → PostOutcome) (j : Nat) (msg : String)
    (hkey : keyFalsy key = false) (hj : j < 3)
    (hpre : ∀ i, i < j → ∃ s b, transport i = .resp s b ∧ s ≠ 200)
    (hexn : transport j = .exn msg) :
    get_ai_recommendation key transport
      = ⟨errorReply msg, j + 1, (List.range j).map (fun i => 2 ^ (i + 1))⟩ := by
  interval_cases j
  · simp [get_ai_recommendation, hkey, geminiLoop, hexn]
  · obtain ⟨s0, b0, h0, hs0⟩ := hpre 0 (by omega)
    simp [get_ai_recommendation, hkey, geminiLoop, h0, hs0, hexn, List.range_succ]
  · obtain ⟨s0, b0, h0, hs0⟩ := hpre 0 (by omega)
    obtain ⟨s1, b1, h1, hs1⟩ := hpre 1 (by omega)
    simp [get_ai_recommendation, hkey, geminiLoop, h0, hs0, h1, hs1, hexn, List.range_succ]

/-- Witness for the amended C1 at a concrete transport that raises on the
first attempt. -/
theorem C1_amended_witness :
    keyFalsy (some "k") = false ∧ 0 < 3 ∧
    get_ai_recommendation (some "k") (fun _ => .exn "boom")
      = ⟨errorReply "boom", 1, []⟩ :=
  ⟨rfl, by decide, by
    have h := C1_transport_exn_not_retried (some "k") (fun _ => .exn "boom") 0 "boom"
      rfl (by decide) (fun i hi => absurd hi (by omega)) rfl
    simpa using h⟩

/-- C4 counterexample: a 200 response whose first part is missing the
`"text"` field does not yield the fixed could-not-be-generated string; the
subscript `["text"]` raises `KeyError`, which the `except` branch turns into
the error-describing string (still without retrying). -/
theorem C4_counterexample :
    (get_ai_recommendation (some "k")
        (fun _ => .resp 200 ⟨some [⟨some ⟨some [⟨none⟩]⟩⟩]⟩)).reply
      = errorReply keyErrorText ∧
    (get_ai_recommendation (some "k")
        (fun _ => .resp 200 ⟨some [⟨some ⟨some [⟨none⟩]⟩⟩]⟩)).reply
      ≠ couldNotReply ∧
    (get_ai_recommendation (some "k")
        (fun _ => .resp 200 ⟨some [⟨some ⟨some [⟨none⟩]⟩⟩]⟩)).posts = 1 := by
  refine ⟨rfl, ?_, rfl⟩
  decide

/-- C4 (amended): on a first-attempt 200 response, a missing/empty
`candidates`, missing `content`, or missing/empty `parts` yields the fixed
could-not-be-generated string on the first occurrence, with exactly one POST
and no retry; a present first part lacking the `text` field instead yields
the error-describing string for the internal `KeyError`, also with exactly
one POST and no retry. -/
theorem C4_shape_handling (key : Option String) (transport : Nat → PostOutcome)
    (body : GeminiJson) (hkey : keyFalsy key = false)
    (h0 : transport 0 = .resp 200 body) :
    (firstPartText body = none →
      get_ai_recommendation key transport = ⟨couldNotReply, 1, []⟩) ∧
    (firstPartText body = some none →
      get_ai_recommendation key transport = ⟨errorReply keyErrorText, 1, []⟩) := by
  constructor <;> intro h <;> simp [get_ai_recommendation, hkey, geminiLoop, h0, h]

/-- Witness for the amended C4 at a body with no `candidates` field. -/
theorem C4_witness :
    keyFalsy (some "k") = false ∧
    firstPartText ⟨none⟩ = none ∧
    get_ai_recommendation (some "k") (fun _ => .resp 200 ⟨none⟩)
      = ⟨couldNotReply, 1, []⟩ :=
  ⟨rfl, rfl,
    (C4_shape_handling (some "k") (fun _ => .resp 200 ⟨none⟩) ⟨none⟩ rfl rfl).1 rfl⟩

/-! ## Dataset loader (app.py lines 48-78)

`load_data` fetches a CSV, lowercases the headers, drops the `note` and
`unit` columns, parses the `date` column with `pd.to_datetime(format=...)`,
and drops exact duplicate rows.  The `try` block catches ONLY
`requests.exceptions.RequestException` (raised by `requests.get` on
transport failure and by `response.raise_for_status()` on a 4xx/5xx
status); every other exception — the `KeyError` of `df.drop` when `note` or
`unit` is missing, the `KeyError` of `df["date"]` when `date` is missing,
the `ValueError` of `pd.to_datetime` on an unparsable cell — propagates to
the caller.  The CSV text is modelled as an already-tokenised table of
string cells (`pd.read_csv` itself is not under test by any claim). -/

/-- Exceptions that escape `load_data` (they are not
`requests.exceptions.RequestException`, so the `except` clause on line 76
does not catch them). -/
inductive PyExn where
  | keyError (missing : List String)
  | valueError (cell : String)
  deriving DecidableEq, Repr

/-- A parsed-but-untyped CSV: header names and rows of string cells,
aligned positionally. -/
structure RawTable where
  headers : List String
  rows : List (List String)
  deriving DecidableEq, Repr

/-- Outcome of the `requests.get(DATA_URL)` call on line 57: a transport
exception (a `RequestException`) or a response with status code and body. -/
inductive FetchResult where
  | exn (msg : String)
  | resp (status : Nat) (body : RawTable)
  deriving DecidableEq, Repr

/-- A cell of the cleaned table: the `date` column holds calendar dates
after `pd.to_datetime`, every other column keeps its string value. -/
inductive Cell where
  | str (s : String)
  | date (d : Nat × Nat × Nat)
  deriving DecidableEq, Repr

/-- Result of one `load_data()` call.  `ok` is the cleaned table returned on
line 75; `emptyWithNotice` is the `st.error(...)` plus empty `DataFrame` of
lines 77-78; `raised` is an exception propagating out of the function. -/
inductive LoadResult where
  | ok (headers : List String) (rows : List (List Cell))
  | emptyWithNotice
  | raised (e : PyExn)
  deriving DecidableEq, Repr

/-! String helpers.  The Lean standard library implements `String.toLower`,
`String.splitOn` and `String.toNat?` by well-founded recursion over byte
positions, which the kernel cannot evaluate; the claims need computable
witnesses, so the few string operations the Python code uses are defined
here structurally over the character list of the string.  The repository
data is ASCII, where these agree with Python `str.lower`, `str.split`,
`str.strip` and `int`. -/

/-- Python `str.lower()` (ASCII range). -/
def lowerString (s : String) : String :=
  String.mk (s.data.map Char.toLower)

/-- Split a character list on a separator character; `split` with a
single-character separator in Python: `"a,,b".split(",") == ["a", "", "b"]`
and `"".split(",") == [""]`. -/
def splitCharList (sep : Char) : List Char → List (List Char)
  | [] => [[]]
  | c :: cs =>
    match splitCharList sep cs with
    | g :: gs => if c = sep then [] :: g :: gs else (c :: g) :: gs
    | [] => if c = sep then [[], []] else [[c]]

/-- Python `str.split(sep)` for a one-character separator. -/
def splitString (sep : Char) (s : String) : List String :=
  (splitCharList sep s.data).map String.mk

/-- Parse a nonempty all-digit string as a decimal natural number. -/
def strToNat? (s : String) : Option Nat :=
  if s.data ≠ [] ∧ s.data.all Char.isDigit then
    some (s.data.foldl (fun n c => 10 * n + (c.toNat - 48)) 0)
  else none

/-- Python `str.strip()`: remove leading and trailing whitespace. -/
def stripString (s : String) : String :=
  String.mk (((s.data.dropWhile Char.isWhitespace).reverse.dropWhile Char.isWhitespace).reverse)

/-- Gregorian leap-year rule, as used by Python `datetime`. -/
def isLeap (y : Nat) : Bool :=
  (y % 4 = 0 && y % 100 ≠ 0) || y % 400 = 0

def daysInMonth (y m : Nat) : Nat :=
  if m = 2 then (if isLeap y then 29 else 28)
  else if m = 4 ∨ m = 6 ∨ m = 9 ∨ m = 11 then 30
  else 31

/-- `pd.to_datetime(cell, format="%d-%m-%Y")` on one cell: three
dash-separated numeric fields, day-month-year, with the day checked against
the calendar month.  An unparsable cell raises `ValueError` in pandas,
modelled as `none`. -/
def parseDate (s : String) : Option (Nat × Nat × Nat) :=
  match splitString '-' s with
  | [ds, ms, ys] =>
    match strToNat? ds, strToNat? ms, strToNat? ys with
    | some d, some m, some y =>
      if 1 ≤ m ∧ m ≤ 12 ∧ 1 ≤ d ∧ d ≤ daysInMonth y m then some (y, m, d)
      else none
    | _, _, _ => none
  | _ => none

/-- app.py line 64: `df.columns = [col.lower() for col in df.columns]`. -/
def lowerHeaders (t : RawTable) : RawTable :=
  ⟨t.headers.map lowerString, t.rows⟩

/-- The columns among `note`/`unit` that are absent from the header list;
`df.drop(columns=["note", "unit"])` raises `KeyError` listing exactly
these when the list is nonempty. -/
def missingNoteUnit (headers : List String) : List String :=
  ["note", "unit"].filter (fun c => !headers.contains c)

def isNoteUnit (h : String) : Bool :=
  h == "note" || h == "unit"

/-- app.py line 67: `df.drop(columns=["note", "unit"])`.  Raises `KeyError`
if either column is missing; otherwise removes both columns from the header
list and from every row (cells are aligned with headers positionally). -/
def dropNoteUnit (t : RawTable) : Except PyExn RawTable :=
  match missingNoteUnit t.headers with
  | [] =>
    .ok ⟨t.headers.filter (fun h => !isNoteUnit h),
      t.rows.map (fun r => ((t.headers.zip r).filter (fun p => !isNoteUnit p.1)).map Prod.snd)⟩
  | missing => .error (.keyError missing)

/-- One row of app.py line 70: the cell at position `i` in the row is the
`date` cell when `i = idx`; it is parsed to a calendar date, and an
unparsable cell aborts the conversion with `ValueError` (pandas has no
per-row skip here).  Every other cell is kept as a string. -/
def parseRowDates (idx : Nat) : Nat → List String → Except PyExn (List Cell)
  | _, [] => .ok []
  | i, c :: cs =>
    if i = idx then
      match parseDate c with
      | some d =>
        match parseRowDates idx (i + 1) cs with
        | .error e => .error e
        | .ok rest => .ok (.date d :: rest)
      | none => .error (.valueError c)
    else
      match parseRowDates idx (i + 1) cs with
      | .error e => .error e
      | .ok rest => .ok (.str c :: rest)

/-- app.py line 70 over the whole table: the first unparsable date cell
invalidates the whole conversion (whole-table failure, no partial mode). -/
def parseTableDates (idx : Nat) : List (List String) → Except PyExn (List (List Cell))
  | [] => .ok []
  | r :: rs =>
    match parseRowDates idx 0 r with
    | .error e => .error e
    | .ok tr =>
      match parseTableDates idx rs with
      | .error e => .error e
      | .ok trs => .ok (tr :: trs)

/-- app.py line 73: `df.drop_duplicates(inplace=True)` — remove exact
duplicate rows, keeping the first occurrence.  `seen` accumulates the rows
already emitted. -/
def dedupAux {α : Type} [DecidableEq α] (seen : List α) : List α → List α
  | [] => []
  | a :: l => if a ∈ seen then dedupAux seen l else a :: dedupAux (a :: seen) l

def dedupKeepFirst {α : Type} [DecidableEq α] (l : List α) : List α :=
  dedupAux [] l

/-- app.py lines 48-78: `load_data`, parametrised by the outcome of the
single `requests.get`.  Only `RequestException` (transport failure, or the
`HTTPError` that `raise_for_status` raises for a 4xx/5xx status) reaches
the `except` clause; `KeyError` from the column drop or the `date` lookup
and `ValueError` from the date parse propagate out. -/
def load_data (f : FetchResult) : LoadResult :=
  match f with
  | .exn _ => .emptyWithNotice
  | .resp status body =>
    if 400 ≤ status ∧ status < 600 then .emptyWithNotice
    else
      match dropNoteUnit (lowerHeaders body) with
      | .error e => .raised e
      | .ok t2 =>
        match t2.headers.indexOf? "date" with
        | none => .raised (.keyError ["date"])
        | some idx =>
          match parseTableDates idx t2.rows with
          | .error e => .raised e
          | .ok typed => .ok t2.headers (dedupKeepFirst typed)

theorem dedupAux_nodup {α : Type} [DecidableEq α] :
    ∀ (l seen : List α), (dedupAux seen l).Nodup ∧ ∀ x ∈ dedupAux seen l, x ∉ seen := by
  intro l
  induction l with
  | nil => intro seen; simp [dedupAux]
  | cons a l ih =>
    intro seen
    by_cases ha : a ∈ seen
    · simpa [dedupAux, ha] using ih seen
    · obtain ⟨hnd, hni⟩ := ih (a :: seen)
      simp only [dedupAux, ha, if_false]
      refine ⟨List.nodup_cons.mpr ⟨fun hmem => ?_, hnd⟩, ?_⟩
      · exact hni a hmem (List.mem_cons_self _ _)
      · intro x hx hxseen
        rcases List.mem_cons.mp hx with rfl | hx'
        · exact ha hxseen
        · exact hni x hx' (List.mem_cons_of_mem _ hxseen)

theorem nodup_dedupKeepFirst {α : Type} [DecidableEq α] (l : List α) :
    (dedupKeepFirst l).Nodup :=
  (dedupAux_nodup l []).1

theorem dropNoteUnit_headers {t t2 : RawTable} (h : dropNoteUnit t = .ok t2) :
    "note" ∉ t2.headers ∧ "unit" ∉ t2.headers := by
  unfold dropNoteUnit at h
  split at h
  · cases h
    constructor <;> intro hm <;>
      simp [List.mem_filter, isNoteUnit] at hm
  · cases h

/-! ## Claims about the loader -/

/-- C8: whenever `load_data` succeeds, the returned table has no two rows
equal in all columns, and contains neither a `note` nor a `unit` column. -/
theorem C8_load_ok_nodup_no_note_unit (f : FetchResult) (h : List String)
    (rows : List (List Cell)) (hok : load_data f = .ok h rows) :
    rows.Nodup ∧ "note" ∉ h ∧ "unit" ∉ h := by
  unfold load_data at hok
  split at hok
  · cases hok
  · split at hok
    · cases hok
    · split at hok
      · cases hok
      · rename_i t2 hdrop
        split at hok
        · cases hok
        · split at hok
          · cases hok
          · cases hok
            exact ⟨nodup_dedupKeepFirst _, dropNoteUnit_headers hdrop⟩

/-- Concrete CSV fetch on which the full cleaning pipeline succeeds. -/
def sampleFetch : FetchResult :=
  .resp 200 ⟨["Date", "State", "Area", "AQI_Value", "Prominent_Pollutants", "Note", "Unit"],
    [["01-01-2024", "Delhi", "Anand Vihar", "372", "PM2.5, PM10", "", "index"],
     ["02-01-2024", "Delhi", "Anand Vihar", "310", "PM2.5", "", "index"]]⟩

/-- Witness for C8 on `sampleFetch`. -/
theorem C8_witness :
    load_data sampleFetch
      = .ok ["date", "state", "area", "aqi_value", "prominent_pollutants"]
        [[Cell.date (2024, 1, 1), Cell.str "Delhi", Cell.str "Anand Vihar",
          Cell.str "372", Cell.str "PM2.5, PM10"],
         [Cell.date (2024, 1, 2), Cell.str "Delhi", Cell.str "Anand Vihar",
          Cell.str "310", Cell.str "PM2.5"]] ∧
    ([[Cell.date (2024, 1, 1), Cell.str "Delhi", Cell.str "Anand Vihar",
          Cell.str "372", Cell.str "PM2.5, PM10"],
      [Cell.date (2024, 1, 2), Cell.str "Delhi", Cell.str "Anand Vihar",
          Cell.str "310", Cell.str "PM2.5"]] : List (List Cell)).Nodup ∧
    "note" ∉ ["date", "state", "area", "aqi_value", "prominent_pollutants"] ∧
    "unit" ∉ ["date", "state", "area", "aqi_value", "prominent_pollutants"] := by
  have hload : load_data sampleFetch
      = .ok ["date", "state", "area", "aqi_value", "prominent_pollutants"]
        [[Cell.date (2024, 1, 1), Cell.str "Delhi", Cell.str "Anand Vihar",
          Cell.str "372", Cell.str "PM2.5, PM10"],
         [Cell.date (2024, 1, 2), Cell.str "Delhi", Cell.str "Anand Vihar",
          Cell.str "310", Cell.str "PM2.5"]] := by decide
  exact ⟨hload, C8_load_ok_nodup_no_note_unit sampleFetch _ _ hload⟩

/-- C2 counterexample: a 200 response whose (lowercased) header lacks the
`note` and `unit` columns makes `load_data` raise `KeyError` — the
exception propagates to the caller instead of producing the empty table
plus notice that the claim promises for every failure cause. -/
theorem C2_counterexample :
    load_data (.resp 200 ⟨["date", "state", "area", "aqi_value", "prominent_pollutants"], []⟩)
      = .raised (.keyError ["note", "unit"]) := by decide

/-- C2 (amended): a transport failure or a 4xx/5xx status makes `load_data`
return the empty table plus a surfaced notice; but a schema mismatch
(missing `note`/`unit` column) raises `KeyError`, and an unparsable date in
any row raises `ValueError`, both propagating to the caller. -/
theorem C2_load_failure_modes :
    (∀ m, load_data (.exn m) = .emptyWithNotice) ∧
    (∀ s b, 400 ≤ s → s < 600 → load_data (.resp s b) = .emptyWithNotice) ∧
    (∀ s b, ¬ (400 ≤ s ∧ s < 600) → missingNoteUnit (lowerHeaders b).headers ≠ [] →
      load_data (.resp s b) = .raised (.keyError (missingNoteUnit (lowerHeaders b).headers))) ∧
    (∀ s b idx e t2, ¬ (400 ≤ s ∧ s < 600) →
      dropNoteUnit (lowerHeaders b) = .ok t2 →
      t2.headers.indexOf? "date" = some idx →
      parseTableDates idx t2.rows = .error e →
      load_data (.resp s b) = .raised e) := by
  refine ⟨fun m => rfl, fun s b h1 h2 => ?_, fun s b hs hmnu => ?_, ?_⟩
  · simp [load_data, h1, h2]
  · rcases hcase : missingNoteUnit (lowerHeaders b).headers with _ | ⟨x, xs⟩
    · exact absurd hcase hmnu
    · simp [load_data, hs, dropNoteUnit, hcase]
  · intro s b idx e t2 hs hdrop hidx hmap
    simp [load_data, hs, hdrop, hidx, hmap]

/-- Witness for the amended C2: one concrete input per failure mode. -/
theorem C2_amended_witness :
    load_data (.exn "timeout") = .emptyWithNotice ∧
    load_data (.resp 404 ⟨[], []⟩) = .emptyWithNotice ∧
    load_data (.resp 200 ⟨["date"], []⟩)
      = .raised (.keyError (missingNoteUnit (lowerHeaders ⟨["date"], []⟩).headers)) ∧
    load_data (.resp 200 ⟨["date", "state", "note", "unit"], [["99-99-2024", "Delhi", "", ""]]⟩)
      = .raised (.valueError "99-99-2024") :=
  ⟨C2_load_failure_modes.1 "timeout",
   C2_load_failure_modes.2.1 404 ⟨[], []⟩ (by decide) (by decide),
   C2_load_failure_modes.2.2.1 200 ⟨["date"], []⟩ (by decide) (by decide),
   C2_load_failure_modes.2.2.2 200
     ⟨["date", "state", "note", "unit"], [["99-99-2024", "Delhi", "", ""]]⟩ 0
     (.valueError "99-99-2024") ⟨["date", "state"], [["99-99-2024", "Delhi"]]⟩
     (by decide) rfl rfl rfl⟩

/-! ## Aggregation pipeline (app.py lines 128-133 and 175-176)

The three views read typed records off the canonical table; the aggregate
helpers below are the pollutant-frequency pipeline and the mean-AQI
computation, over a typed row model. -/

/-- One row of the canonical table, with the columns the aggregation code
reads.  `prominent_pollutants` is `none` for a null cell (excluded by
`dropna(subset=["prominent_pollutants"])`). -/
structure Record where
  date : Nat × Nat × Nat
  state : String
  area : String
  aqi_value : ℚ
  prominent_pollutants : Option String
  deriving DecidableEq, Repr

/-- app.py lines 130-132: `.str.split(",")` followed by `.str.strip()` on
each exploded token. -/
def splitTrim (s : String) : List String :=
  (splitString ',' s).map stripString

/-- app.py lines 128-131: drop rows with a null pollutant field, split each
remaining pollutant string on commas, explode, and strip each token. -/
def pollutantTokens (df : List Record) : List String :=
  (df.filterMap (fun r => r.prominent_pollutants)).flatMap splitTrim

/-- app.py line 133: `value_counts()` as a mapping token → count; each
occurrence of a token counts once. -/
def pollutantFrequency (df : List Record) (t : String) : Nat :=
  (pollutantTokens df).count t

/-- pandas `Series.mean()`: arithmetic mean of the values, `NaN` on an
empty series — modelled as `none`; it never raises. -/
def seriesMean (xs : List ℚ) : Option ℚ :=
  if xs.length = 0 then none else some (xs.sum / (xs.length : ℚ))

/-- app.py lines 175-176: `area_df = df[df["area"] == area]` followed by
`area_df["aqi_value"].mean()`. -/
def avg_aqi_area (df : List Record) (a : String) : Option ℚ :=
  seriesMean ((df.filter (fun r => r.area == a)).map (fun r => r.aqi_value))

/-- The three rows of the claimed example: pollutant strings
`"PM2.5, PM10"`, `"PM2.5"`, and null. -/
def exampleRows : List Record :=
  [⟨(2024, 1, 1), "Delhi", "Anand Vihar", 372, some "PM2.5, PM10"⟩,
   ⟨(2024, 1, 2), "Delhi", "Anand Vihar", 310, some "PM2.5"⟩,
   ⟨(2024, 1, 3), "Delhi", "Anand Vihar", 250, none⟩]

/-! ## Claims about the aggregation pipeline -/

/-- C6: `pollutantFrequency` excludes rows with a null pollutant field,
splits each non-null pollutant string on commas, trims whitespace around
each token, and counts each token once per occurrence; on the example rows
with pollutant strings `"PM2.5, PM10"`, `"PM2.5"`, and null it yields the
mapping `PM2.5 ↦ 2`, `PM10 ↦ 1` (and no other token occurs). -/
theorem C6_pollutant_frequency :
    pollutantTokens exampleRows = ["PM2.5", "PM10", "PM2.5"] ∧
    pollutantFrequency exampleRows "PM2.5" = 2 ∧
    pollutantFrequency exampleRows "PM10" = 1 ∧
    (∀ (df : List Record) (t : String) (d : Nat × Nat × Nat) (st a : String) (q : ℚ),
      pollutantFrequency (⟨d, st, a, q, none⟩ :: df) t = pollutantFrequency df t) ∧
    (∀ (df : List Record) (t s : String) (d : Nat × Nat × Nat) (st a : String) (q : ℚ),
      pollutantFrequency (⟨d, st, a, q, some s⟩ :: df) t
        = (splitTrim s).count t + pollutantFrequency df t) := by
  refine ⟨by decide, by decide, by decide, ?_, ?_⟩
  · intro df t d st a q
    simp [pollutantFrequency, pollutantTokens]
  · intro df t s d st a q
    simp [pollutantFrequency, pollutantTokens, List.count_append]

/-- C9: the mean AQI of an empty row subset is undefined (`NaN` in pandas,
`none` here), and the computation is a total function — it does not
raise. -/
theorem C9_mean_empty_nan (df : List Record) (a : String)
    (h : df.filter (fun r => r.area == a) = []) :
    avg_aqi_area df a = none := by
  simp [avg_aqi_area, h, seriesMean]

/-- Witness for C9 on the empty table. -/
theorem C9_witness :
    ([] : List Record).filter (fun r => r.area == "Delhi") = [] ∧
    avg_aqi_area [] "Delhi" = none :=
  ⟨rfl, C9_mean_empty_nan [] "Delhi" rfl⟩

end AirPurifier
